import Mathlib

/-!
Shallow embedding of the gameplay-simulation core of `first_bevy_game`
(player movement / jump charge / dash / knockback, boss attack patterns,
collision and damage resolution, stage progression), together with proofs
checking the natural-language specification against the code.

Conventions of the embedding:
* `f32` values are modelled as exact rationals (`ℚ`); all game arithmetic in
  the source is plain +, -, *, /, `clamp`, `min`, `max`, comparisons.
* The only irrational operations the relevant systems use are
  `Vec2::length` / `Vec2::normalize` / `Vec2::normalize_or_zero`.  These are
  injected as explicit function parameters (`sqrtFn`, `unitOf`, `invLen`);
  theorems quantify over them, adding only the facts that are true of the
  real operations (for example `sqrtFn 0 = 0`, or positivity of `1/length`
  on nonzero vectors).  No theorem below depends on any further property of
  these parameters.
* ECS systems become explicit state-passing functions; per-entity queries
  become folds over lists of entity states, in the iteration order of the
  source loops.
-/

namespace BevyGame

/-- Two-dimensional vector (the gameplay-relevant part of `Vec2`). -/
structure Vec2 where
  x : ℚ
  y : ℚ
deriving DecidableEq, Repr

/-- The zero vector. -/
def Vec2.zero : Vec2 := ⟨0, 0⟩

/-- Componentwise scalar multiple (`v * s` on `Vec2`). -/
def Vec2.scale (v : Vec2) (s : ℚ) : Vec2 := ⟨v.x * s, v.y * s⟩

/-- Model of `Vec2::normalize_or_zero`: zero on the zero vector, otherwise
the injected unit-vector function `unitOf` (the source divides by the
length, which is irrational in general). -/
def normalizeOrZero (unitOf : Vec2 → Vec2) (v : Vec2) : Vec2 :=
  if v = Vec2.zero then Vec2.zero else unitOf v

/-- Model of `Vec2::length` via an injected square-root function applied to
the exact squared length. -/
def vecLength (sqrtFn : ℚ → ℚ) (v : Vec2) : ℚ :=
  sqrtFn (v.x * v.x + v.y * v.y)

/-- Model of `f32::clamp` (source always calls it with `lo <= hi`). -/
def clampQ (v lo hi : ℚ) : ℚ := min (max v lo) hi

/-- Model of `f32::signum` on the nonzero values the source applies it to. -/
def signumQ (x : ℚ) : ℚ := if 0 ≤ x then 1 else -1

/-! ### Constants from `src/systems/config.rs` and local constants of
`src/systems/player.rs` -/

def BOUNDARY_LEFT : ℚ := -350
def BOUNDARY_RIGHT : ℚ := 350
def BOUNDARY_TOP : ℚ := 200
def BOUNDARY_BOTTOM : ℚ := -198
def MAX_STAGES : ℕ := 2
def KNOCKBACK_FORCE : ℚ := 700
def KNOCKBACK_DURATION : ℚ := 7/10
def KNOCKBACK_DECAY_RATE : ℚ := 9/10
def KNOCKBACK_MOVEMENT_REDUCTION : ℚ := 3/10
def INVINCIBILITY_DURATION : ℚ := 7/10
def KNOCKBACK_TOP_HORIZONTAL_COMPONENT : ℚ := 6/10
def KNOCKBACK_TOP_VERTICAL_COMPONENT : ℚ := 8/10
def KNOCKBACK_SIDE_VERTICAL_COMPONENT : ℚ := 3/10

/-- `SMALL_JUMP_CHARGE_RATIO` from config.rs (0.43). -/
def smallJumpChargeRatio : ℚ := 43/100

/-- Local constants of `player_movement`. -/
def SPEED : ℚ := 200
def DASH_SPEED : ℚ := 400
def DASH_DURATION : ℚ := 1/5
def BASE_GRAVITY : ℚ := 800
def GROUND_Y : ℚ := -198
def HIGH_JUMP_STRENGTH : ℚ := 620
def HIGH_JUMP_GRAVITY : ℚ := 1200
def SMALL_JUMP_STRENGTH : ℚ := 701/2
def SMALL_JUMP_GRAVITY : ℚ := 960
def MAX_CHARGE_TIME : ℚ := 1/5

/-! ### Player data model (`src/components/player.rs`) -/

/-- `JumpType` from components/player.rs. -/
inductive JumpType where
  | none
  | high
  | small
deriving DecidableEq, Repr

/-- `Dash` component. -/
structure Dash where
  timer : ℚ
  direction : ℚ
deriving DecidableEq, Repr

/-- `Knockback` component. -/
structure Knockback where
  velocity : Vec2
  timer : ℚ
deriving DecidableEq, Repr

/-- Snapshot of the logical input signals `player_movement` reads
(arrow keys, and Space/X merged into the three jump-button signals the code
derives from them). -/
structure MoveInput where
  left : Bool
  right : Bool
  up : Bool
  down : Bool
  jumpPressed : Bool
  jumpJustPressed : Bool
  jumpJustReleased : Bool
deriving DecidableEq, Repr

/-- The player state touched by `player_movement`: position, vertical
velocity, jump type, facing direction, jump charge, and the optional
`Dash` component plus presence of `Knockback`. -/
structure MoveState where
  x : ℚ
  y : ℚ
  velY : ℚ
  jumpType : JumpType
  facing : Vec2
  chargeTimer : ℚ
  isCharging : Bool
  dash : Option Dash
  hasKnockback : Bool
deriving DecidableEq, Repr

/-- The jump executed on button release in `player_movement`
(lines 244-256): charge ratio is `clamp(timer / MAX_CHARGE_TIME, 0, 1)`;
strictly below `SMALL_JUMP_CHARGE_RATIO` gives the small jump, otherwise
the high jump.  Returns the new `(jump_type, velocity.y)`. -/
def jumpReleaseOutcome (timer : ℚ) : JumpType × ℚ :=
  let chargeRatio := clampQ (timer / MAX_CHARGE_TIME) 0 1
  if chargeRatio < smallJumpChargeRatio then
    (JumpType.small, SMALL_JUMP_STRENGTH)
  else
    (JumpType.high, HIGH_JUMP_STRENGTH)

/-- The ground-collision block of `player_movement` (player.rs lines
280-284): falling below `GROUND_Y` clamps to the ground, zeroes vertical
velocity and resets the jump type. -/
def groundCollision (y velY : ℚ) (jumpType : JumpType) : ℚ × ℚ × JumpType :=
  if y < GROUND_Y then (GROUND_Y, 0, JumpType.none) else (y, velY, jumpType)

/-- The facing-direction update of `player_movement` (player.rs lines
187-189): a nonzero input direction is normalized into the facing
direction (`invLen dir` injects the positive factor `1 / length`),
otherwise the old facing is kept. -/
def facingUpdate (invLen : Vec2 → ℚ) (dir old : Vec2) : Vec2 :=
  if dir ≠ Vec2.zero then Vec2.scale dir (invLen dir) else old

/-- One tick of `player_movement` for one player (player.rs lines 168-285).
`invLen` injects the positive scalar `1 / length` used by
`Vec2::normalize` when the facing direction is updated. -/
def player_movement (invLen : Vec2 → ℚ) (inp : MoveInput) (dt : ℚ)
    (s : MoveState) : MoveState :=
  -- movement direction from input (ArrowDown is not recorded)
  let dirX : ℚ := (if inp.left then -1 else 0) + (if inp.right then 1 else 0)
  let dirY : ℚ := if inp.up then 1 else 0
  let dir : Vec2 := ⟨dirX, dirY⟩
  let facing := facingUpdate invLen dir s.facing
  let s := { s with facing := facing }
  match s.dash with
  | some d =>
    -- dash overrides all other movement; note: no boundary clamp here
    let x := s.x + d.direction * DASH_SPEED * dt
    let t := d.timer - dt
    { s with x := x, dash := if t ≤ 0 then none else some { d with timer := t } }
  | none =>
    let movementSpeed := if s.hasKnockback
      then SPEED * KNOCKBACK_MOVEMENT_REDUCTION else SPEED
    let x := clampQ (s.x + dirX * movementSpeed * dt) BOUNDARY_LEFT BOUNDARY_RIGHT
    let y := clampQ s.y BOUNDARY_BOTTOM BOUNDARY_TOP
    let isOnGround := y ≤ GROUND_Y
    if inp.down ∧ inp.jumpJustPressed ∧ isOnGround then
      -- insert Dash and return (no other movement this tick)
      { s with x := x, y := y,
               dash := some ⟨DASH_DURATION, facing.x⟩ }
    else
      -- start charging jump
      let (chargeTimer, isCharging) :=
        if inp.jumpJustPressed ∧ isOnGround then ((0 : ℚ), true)
        else (s.chargeTimer, s.isCharging)
      -- charge while held on ground
      let chargeTimer :=
        if isCharging ∧ inp.jumpPressed ∧ isOnGround
        then chargeTimer + dt else chargeTimer
      -- execute jump on release
      let (velY, jumpType, chargeTimer, isCharging) :=
        if inp.jumpJustReleased ∧ isCharging then
          if isOnGround then
            let o := jumpReleaseOutcome chargeTimer
            (o.2, o.1, (0 : ℚ), false)
          else (s.velY, s.jumpType, (0 : ℚ), false)
        else (s.velY, s.jumpType, chargeTimer, isCharging)
      -- gravity by jump type, only in the air
      let g := match jumpType with
        | JumpType.high => HIGH_JUMP_GRAVITY
        | JumpType.small => SMALL_JUMP_GRAVITY
        | JumpType.none => BASE_GRAVITY
      let velY := if ¬ isOnGround then velY - g * dt else velY
      let y := y + velY * dt
      -- ground collision
      let g := groundCollision y velY jumpType
      { s with x := x, y := g.1, velY := g.2.1, jumpType := g.2.2,
               chargeTimer := chargeTimer, isCharging := isCharging }

/-- State touched by `apply_knockback` (player.rs lines 867-890):
position and the `Knockback` component. -/
structure KnockbackState where
  x : ℚ
  y : ℚ
  kb : Knockback
deriving DecidableEq, Repr

/-- One tick of `apply_knockback` for one player: displace by
`velocity * dt`, clamp to boundaries, decay velocity, decrement timer,
remove the component once the timer is not positive. -/
def apply_knockback (dt : ℚ) (s : KnockbackState) : (ℚ × ℚ) × Option Knockback :=
  let x := clampQ (s.x + s.kb.velocity.x * dt) BOUNDARY_LEFT BOUNDARY_RIGHT
  let y := clampQ (s.y + s.kb.velocity.y * dt) BOUNDARY_BOTTOM BOUNDARY_TOP
  let velocity := Vec2.scale s.kb.velocity KNOCKBACK_DECAY_RATE
  let timer := s.kb.timer - dt
  ((x, y), if timer ≤ 0 then none else some ⟨velocity, timer⟩)

/-! ### Player shooting (`player_shooting`, player.rs lines 288-414) -/

/-- `ChargeShot` component. -/
structure ChargeShot where
  timer : ℚ
  isCharging : Bool
deriving DecidableEq, Repr

/-- Input signals read by `player_shooting` (the C key). -/
structure ShootInput where
  pressed : Bool
  justPressed : Bool
  justReleased : Bool
deriving DecidableEq, Repr

/-- The helper closure `get_shoot_direction` (player.rs lines 310-329):
facing up beats facing left/right beats a default of right; a result with
negative y would be rejected with `None`. -/
def get_shoot_direction (facing : Vec2) : Option Vec2 :=
  let shootDir : Vec2 :=
    if facing.y > 0 then ⟨0, 1⟩
    else if |facing.x| > 0 then ⟨signumQ facing.x, 0⟩
    else ⟨1, 0⟩
  if shootDir.y < 0 then none else some shootDir

/-- Result of one `player_shooting` tick for one player: new cooldown
timer, new charge state, and the number of projectiles spawned. -/
structure ShootResult where
  shootTimer : ℚ
  charge : ChargeShot
  spawned : ℕ
deriving DecidableEq, Repr

/-- The charge-start and charge-hold steps of the Breadman arm of
`player_shooting` (player.rs lines 367-377): pressing with the cooldown
elapsed starts charging; holding accumulates the timer, capped at
`chargeShotMaxTime`. -/
def chargeShotUpdate (chargeShotMaxTime : ℚ) (inp : ShootInput)
    (dt shootTimer : ℚ) (cs : ChargeShot) : ChargeShot :=
  let cs := if inp.justPressed ∧ shootTimer ≤ 0 then ⟨0, true⟩ else cs
  if cs.isCharging ∧ inp.pressed
  then { cs with timer := min (cs.timer + dt) chargeShotMaxTime } else cs

/-- One tick of `player_shooting` for one player.  `isBreadman` selects the
charging weapon variant; `chargeShotMinTime`, `chargeShotMaxTime`,
`chargeShotCooldown`, `normalShotCooldown` are the `CHARGE_SHOT_*` /
`NORMAL_SHOT_COOLDOWN` config constants (referenced from config.rs but not
present under src/, so they stay parameters). -/
def player_shooting (chargeShotMinTime chargeShotMaxTime chargeShotCooldown
    normalShotCooldown : ℚ) (isBreadman : Bool) (inp : ShootInput) (dt : ℚ)
    (facing : Vec2) (shootTimer : ℚ) (cs : ChargeShot) : ShootResult :=
  let shootTimer := shootTimer - dt
  if isBreadman then
    -- Breadman: charge shot mechanics
    let cs := chargeShotUpdate chargeShotMaxTime inp dt shootTimer cs
    if inp.justReleased ∧ cs.isCharging then
      match get_shoot_direction facing with
      | some _ =>
        let isChargedShot := cs.timer ≥ chargeShotMinTime
        let shootTimer := if isChargedShot then chargeShotCooldown
          else normalShotCooldown
        ⟨shootTimer, ⟨0, false⟩, 1⟩
      | none => ⟨shootTimer, ⟨0, false⟩, 0⟩
    else ⟨shootTimer, cs, 0⟩
  else
    -- Cheeseman: normal shots only
    if inp.justPressed ∧ shootTimer ≤ 0 then
      match get_shoot_direction facing with
      | some _ => ⟨normalShotCooldown, ⟨0, false⟩, 1⟩
      | none => ⟨shootTimer, ⟨0, false⟩, 0⟩
    else ⟨shootTimer, ⟨0, false⟩, 0⟩

/-! ### Collision and damage (`check_aabb_collision`, `player_boss_collision`,
`boss_projectile_player_collision`, `projectile_boss_collision`) -/

/-- `check_aabb_collision` (player.rs lines 664-672): strict AABB overlap
test on half extents. -/
def check_aabb_collision (pos1 : Vec2) (size1 : Vec2) (pos2 : Vec2)
    (size2 : Vec2) : Bool :=
  let half1 := Vec2.scale size1 (1/2)
  let half2 := Vec2.scale size2 (1/2)
  pos1.x - half1.x < pos2.x + half2.x ∧
  pos1.x + half1.x > pos2.x - half2.x ∧
  pos1.y - half1.y < pos2.y + half2.y ∧
  pos1.y + half1.y > pos2.y - half2.y

/-- `calculate_knockback_direction` (player.rs lines 738-787).  `sqrtFn`
and `unitOf` inject `Vec2::length` and `Vec2::normalize`. -/
def calculate_knockback_direction (sqrtFn : ℚ → ℚ) (unitOf : Vec2 → Vec2)
    (directionToPlayer : Vec2) : Vec2 :=
  if vecLength sqrtFn directionToPlayer < 1/1000 then ⟨-1, 0⟩
  else
    let n := unitOf directionToPlayer
    let dx := |directionToPlayer.x|
    let dy := |directionToPlayer.y|
    if dy > dx then
      let horizontalDir : ℚ := if n.x > 0 then 1 else -1
      if n.y > 0 then
        unitOf ⟨horizontalDir * KNOCKBACK_TOP_HORIZONTAL_COMPONENT,
                KNOCKBACK_TOP_VERTICAL_COMPONENT⟩
      else
        unitOf ⟨horizontalDir * KNOCKBACK_TOP_HORIZONTAL_COMPONENT,
                -KNOCKBACK_TOP_VERTICAL_COMPONENT⟩
    else
      let horizontalDir : ℚ := if n.x > 0 then 1 else -1
      unitOf ⟨horizontalDir, KNOCKBACK_SIDE_VERTICAL_COMPONENT⟩

/-- The invincibility gate shared by both damage systems: if the component
is present its timer is decremented by `dt`; still-positive means immune,
otherwise the component is removed and damage is allowed.  Returns
`(isInvincible, new component)`. -/
def invincibilityGate (dt : ℚ) (inv : Option ℚ) : Bool × Option ℚ :=
  match inv with
  | some t =>
    let t := t - dt
    if t > 0 then (true, some t) else (false, none)
  | none => (false, none)

/-- Player state touched by the two player-damage systems: position, Hp,
optional invincibility timer, optional knockback. -/
structure PlayerHitState where
  pos : Vec2
  hp : ℚ
  hpMax : ℚ
  inv : Option ℚ
  kb : Option Knockback
deriving DecidableEq, Repr

/-- Player and boss AABB sizes used by the collision systems. -/
def PLAYER_SIZE : Vec2 := ⟨32, 64⟩
def BOSS_SIZE : Vec2 := ⟨32, 64⟩
def BOSS_PROJECTILE_SIZE : Vec2 := ⟨10, 10⟩

/-- One tick of `player_boss_collision` (player.rs lines 790-864) for one
player against the list of boss positions, in query order.  `damage` is
`BOSS_COLLISION_DAMAGE * defense_multiplier` (the constant is referenced
from config.rs but not present under src/, so it stays a parameter). -/
def player_boss_collision (sqrtFn : ℚ → ℚ) (unitOf : Vec2 → Vec2)
    (dt damage : ℚ) (bosses : List Vec2) (p : PlayerHitState) : PlayerHitState :=
  let (isInvincible, inv) := invincibilityGate dt p.inv
  let p := { p with inv := inv }
  if isInvincible then p
  else
    match bosses.find? (fun b =>
        check_aabb_collision p.pos PLAYER_SIZE b BOSS_SIZE) with
    | some b =>
      let directionToPlayer : Vec2 := ⟨p.pos.x - b.x, p.pos.y - b.y⟩
      let kbDir := calculate_knockback_direction sqrtFn unitOf directionToPlayer
      { p with hp := max (p.hp - damage) 0,
               inv := some INVINCIBILITY_DURATION,
               kb := some ⟨Vec2.scale kbDir KNOCKBACK_FORCE, KNOCKBACK_DURATION⟩ }
    | none => p

/-- A live boss projectile as seen by the player-collision system. -/
structure BossProjEntity where
  pos : Vec2
  direction : Vec2
deriving DecidableEq, Repr

/-- Body of the projectile loop of `boss_projectile_player_collision`
(boss.rs lines 506-558) for a single player: the invincibility gate runs
once per projectile; on a hit the player takes clamped damage, gains
invincibility and knockback, and the projectile despawns (second
component `true`). -/
def bossProjectileHitStep (unitOf : Vec2 → Vec2) (dt damage : ℚ)
    (proj : BossProjEntity) (p : PlayerHitState) : PlayerHitState × Bool :=
  let (isInvincible, inv) := invincibilityGate dt p.inv
  let p := { p with inv := inv }
  if isInvincible then (p, false)
  else if check_aabb_collision proj.pos BOSS_PROJECTILE_SIZE p.pos PLAYER_SIZE then
    let kbDir := normalizeOrZero unitOf proj.direction
    ({ p with hp := max (p.hp - damage) 0,
              inv := some INVINCIBILITY_DURATION,
              kb := some ⟨Vec2.scale kbDir KNOCKBACK_FORCE, KNOCKBACK_DURATION⟩ },
     true)
  else (p, false)

/-- One tick of `boss_projectile_player_collision` over the projectile list
(in query order) for a single player.  `damage` is
`15.0 * defense_multiplier` (base damage 15 is hard-coded in boss.rs). -/
def boss_projectile_player_collision (unitOf : Vec2 → Vec2) (dt damage : ℚ)
    (projs : List BossProjEntity) (p : PlayerHitState) : PlayerHitState :=
  projs.foldl (fun p proj => (bossProjectileHitStep unitOf dt damage proj p).1) p

/-- A player projectile as seen by `projectile_boss_collision`. -/
structure PlayerProjEntity where
  pos : Vec2
  direction : Vec2
  chargeLevel : ℚ
deriving DecidableEq, Repr

/-- Boss state touched by `projectile_boss_collision`: position, Hp and the
optional knockback the charged shot inserts. -/
structure BossHitState where
  pos : Vec2
  hp : ℚ
  hpMax : ℚ
  kb : Option Knockback
deriving DecidableEq, Repr

/-- One player projectile against one boss in `projectile_boss_collision`
(player.rs lines 919-983).  `baseDamage`, `chargedThreshold` and
`chargeMultiplier` are `PLAYER_PROJECTILE_DAMAGE`,
`CHARGE_SHOT_MIN_TIME / CHARGE_SHOT_MAX_TIME` and
`CHARGE_SHOT_DAMAGE_MULTIPLIER` (referenced from config.rs but not present
under src/, so they stay parameters).  Returns the new boss state and
whether the projectile hit (and so despawns). -/
def projectile_boss_collision (unitOf : Vec2 → Vec2)
    (baseDamage chargedThreshold chargeMultiplier : ℚ)
    (proj : PlayerProjEntity) (boss : BossHitState) : BossHitState × Bool :=
  let sizeMultiplier := 1 + proj.chargeLevel * (3/2)
  let projectileSize := Vec2.scale ⟨10, 10⟩ sizeMultiplier
  if check_aabb_collision proj.pos projectileSize boss.pos BOSS_SIZE then
    let isChargedShot := proj.chargeLevel ≥ chargedThreshold
    let damage := if isChargedShot then
        baseDamage * (1 + proj.chargeLevel * (chargeMultiplier - 1))
      else baseDamage
    let boss := { boss with hp := max (boss.hp - damage) 0 }
    let boss := if isChargedShot then
        { boss with kb := some ⟨Vec2.scale (normalizeOrZero unitOf proj.direction)
                                  KNOCKBACK_FORCE, KNOCKBACK_DURATION⟩ }
      else boss
    (boss, true)
  else (boss, false)

/-! ### Boss attack engine (`boss_attacks`, boss.rs lines 309-426) -/

/-- `BossAttackState` (components/boss.rs): main cooldown timer, remaining
burst shots and the separate burst timer. -/
structure BossAttackState where
  timer : ℚ
  burstCount : ℕ
  burstTimer : ℚ
deriving DecidableEq, Repr

/-- Default `BossAttackState` (all zero). -/
def BossAttackState.start : BossAttackState := ⟨0, 0, 0⟩

/-- Parameters of a `RapidFire` pattern. -/
structure RapidFire where
  cooldown : ℚ
  burstCount : ℕ
  burstDelay : ℚ
deriving DecidableEq, Repr

/-- One tick of the `RapidFire` arm of `boss_attacks` with a player
present: returns the new attack state and how many projectiles were fired
(0 or 1). -/
def boss_attacks_rapid_fire (pat : RapidFire) (dt : ℚ)
    (s : BossAttackState) : BossAttackState × ℕ :=
  let s := { s with timer := s.timer - dt }
  if s.burstCount > 0 then
    let burstTimer := s.burstTimer - dt
    if burstTimer ≤ 0 then
      -- fire one projectile
      let burstCount := s.burstCount - 1
      if burstCount > 0 then
        ({ s with burstCount := burstCount, burstTimer := pat.burstDelay }, 1)
      else
        ({ s with burstCount := burstCount, burstTimer := burstTimer,
                  timer := pat.cooldown }, 1)
    else
      ({ s with burstTimer := burstTimer }, 0)
  else if s.timer ≤ 0 then
    -- start a new burst
    ({ s with burstCount := pat.burstCount, burstTimer := pat.burstDelay }, 0)
  else
    (s, 0)

/-- Run `n` ticks of the `RapidFire` attack system at a fixed `dt`,
collecting the per-tick fired counts in order. -/
def rapidFireRun (pat : RapidFire) (dt : ℚ) :
    ℕ → BossAttackState → BossAttackState × List ℕ
  | 0, s => (s, [])
  | n + 1, s =>
    let (s', fired) := boss_attacks_rapid_fire pat dt s
    let (sEnd, rest) := rapidFireRun pat dt n s'
    (sEnd, fired :: rest)

/-! ### Boss projectiles (`spawn_boss_projectile`,
`boss_projectile_movement`, boss.rs lines 429-476) -/

/-- A boss projectile entity: position, stored unit direction and stored
scalar speed, as assembled by `spawn_boss_projectile`. -/
structure BossProjectile where
  x : ℚ
  y : ℚ
  direction : Vec2
  speed : ℚ
deriving DecidableEq, Repr

/-- `spawn_boss_projectile` (boss.rs lines 429-447): stores
`velocity.normalize_or_zero()` as the direction and `velocity.length()` as
the speed. -/
def spawn_boss_projectile (unitOf : Vec2 → Vec2) (sqrtFn : ℚ → ℚ)
    (position : Vec2) (velocity : Vec2) : BossProjectile :=
  { x := position.x, y := position.y,
    direction := normalizeOrZero unitOf velocity,
    speed := vecLength sqrtFn velocity }

/-- The velocity `boss_attacks` passes to `spawn_boss_projectile` for an
aimed shot: `(player - boss).truncate().normalize_or_zero() * projectile_speed`. -/
def aimedShotVelocity (unitOf : Vec2 → Vec2) (bossPos playerPos : Vec2)
    (projectileSpeed : ℚ) : Vec2 :=
  Vec2.scale (normalizeOrZero unitOf ⟨playerPos.x - bossPos.x, playerPos.y - bossPos.y⟩)
    projectileSpeed

/-- One tick of `boss_projectile_movement` for one projectile (boss.rs
lines 456-476): advance by `direction * speed * dt`; despawn (`none`) once
strictly outside the world boundaries on any axis. -/
def boss_projectile_movement (dt : ℚ) (p : BossProjectile) : Option BossProjectile :=
  let x := p.x + p.direction.x * p.speed * dt
  let y := p.y + p.direction.y * p.speed * dt
  if x < BOUNDARY_LEFT ∨ x > BOUNDARY_RIGHT ∨ y < BOUNDARY_BOTTOM ∨ y > BOUNDARY_TOP
  then none
  else some { p with x := x, y := y }

/-- Iterate `boss_projectile_movement` over a list of tick durations,
propagating a despawn. -/
def bossProjectileTicks (dts : List ℚ) (p : BossProjectile) : Option BossProjectile :=
  dts.foldl (fun acc dt => acc.bind (boss_projectile_movement dt)) (some p)

/-! ### Hp and progression (`spawn_player_and_level`, `check_game_outcome`,
`handle_stage_progression`, `handle_upgrade_input`, game_menu.rs) -/

/-- `Hp` component. -/
structure Hp where
  current : ℚ
  max : ℚ
deriving DecidableEq, Repr

/-- `BossType` (components/boss.rs): only the default boss exists. -/
inductive BossType where
  | default
deriving DecidableEq, Repr

/-- `GameState` (game_menu.rs lines 10-18). -/
inductive GameState where
  | characterSelection
  | inGame
  | stageUpgrade
  | gameOver
  | gameWin
deriving DecidableEq, Repr

/-- `PlayerUpgrades` resource (game_menu.rs lines 110-135). -/
structure PlayerUpgrades where
  maxHpBonus : ℚ
  currentHp : ℚ
  defenseMultiplier : ℚ
  hasBossWeapon : Bool
  bossWeaponType : Option BossType
deriving DecidableEq, Repr

/-- `PlayerUpgrades::default()`. -/
def PlayerUpgrades.start : PlayerUpgrades :=
  { maxHpBonus := 0, currentHp := 100, defenseMultiplier := 1,
    hasBossWeapon := false, bossWeaponType := none }

/-- The player Hp assembled by `spawn_player_and_level` (player.rs lines
28-53): max is the base 100 plus the upgrade bonus; current is the
preserved HP clamped to the new max (or full when no upgrades resource
exists). -/
def spawnPlayerHp (upgrades : Option PlayerUpgrades) : Hp :=
  let maxHp := 100 + (upgrades.map (·.maxHpBonus)).getD 0
  let currentHp := (upgrades.map (fun u => min u.currentHp maxHp)).getD maxHp
  { current := currentHp, max := maxHp }

/-- The boss Hp assembled by `spawn_boss` (player.rs lines 118-121). -/
def spawnBossHp : Hp := { current := 200, max := 200 }

/-- Modelled from the spec: the config constant `HP_RESTORATION_AMOUNT` is
referenced by `handle_upgrade_input` but its definition is not present
under src/; the upgrade screen's button label "+25 HP"
(game_menu.rs line 672) fixes the amount at 25. -/
def HP_RESTORATION_AMOUNT : ℚ := 25

/-- The "Restore HP" upgrade branch of `handle_upgrade_input`
(game_menu.rs lines 823-828): add the fixed amount, capped at the current
(possibly upgraded) max. -/
def restoreHpUpgrade (u : PlayerUpgrades) : PlayerUpgrades :=
  let maxHp := 100 + u.maxHpBonus
  { u with currentHp := min (u.currentHp + HP_RESTORATION_AMOUNT) maxHp }

/-- The "Acquire Boss Weapon" upgrade branch of `handle_upgrade_input`
(game_menu.rs lines 829-835). -/
def acquireWeaponUpgrade (defeated : Option BossType) (u : PlayerUpgrades) :
    PlayerUpgrades :=
  match defeated with
  | some bt => { u with hasBossWeapon := true, bossWeaponType := some bt }
  | none => u

/-- The navigation part of `handle_upgrade_input` (game_menu.rs lines
781-791): ArrowUp then ArrowDown, each clamped to the two options. -/
def upgradeSelectionNav (upJustPressed downJustPressed : Bool) (idx : ℕ) : ℕ :=
  let idx := if upJustPressed ∧ idx > 0 then idx - 1 else idx
  if downJustPressed ∧ idx < 1 then idx + 1 else idx

/-- The confirm part of `handle_upgrade_input` (game_menu.rs lines
821-842): apply the selected upgrade, increment the stage and transition
to `InGame`. -/
def handleUpgradeConfirm (idx : ℕ) (defeated : Option BossType) (stage : ℕ)
    (u : PlayerUpgrades) : PlayerUpgrades × ℕ × GameState :=
  let u := match idx with
    | 0 => restoreHpUpgrade u
    | 1 => acquireWeaponUpgrade defeated u
    | _ => u
  (u, stage + 1, GameState.inGame)

/-- World state seen by the outcome/progression systems. -/
structure OutcomeWorld where
  playerHp : ℚ
  bossHp : ℚ
  bossType : BossType
  stage : ℕ
  defeated : Option BossType
  showWinScreen : Bool
  state : GameState
deriving DecidableEq, Repr

/-- `check_game_outcome` (player.rs lines 996-1023): a dead player routes
to `GameOver` first; otherwise a dead boss records `DefeatedBoss` and
routes to `GameWin`. -/
def check_game_outcome (w : OutcomeWorld) : OutcomeWorld :=
  if w.playerHp ≤ 0 then { w with state := GameState.gameOver }
  else if w.bossHp ≤ 0 then
    { w with defeated := some w.bossType, state := GameState.gameWin }
  else w

/-- `handle_stage_progression` (game_menu.rs lines 861-882), run on entry
into `GameWin`: below the final stage it suppresses the win screen and
routes on to `StageUpgrade`; at the final stage it shows the win screen. -/
def handle_stage_progression (w : OutcomeWorld) : OutcomeWorld :=
  if w.stage < MAX_STAGES then
    { w with showWinScreen := false, state := GameState.stageUpgrade }
  else
    { w with showWinScreen := true }

/-- The boss-defeat pipeline wired up by `GameMenuPlugin::build`
(game_menu.rs lines 929-935): `check_game_outcome` sets `GameWin`; on
entering `GameWin`, `handle_stage_progression` runs first and
`spawn_game_win_screen` runs only if `ShowWinScreen` is set.  Returns the
final world and whether the win screen was spawned. -/
def bossDefeatPipeline (w : OutcomeWorld) : OutcomeWorld × Bool :=
  let w1 := check_game_outcome w
  if w1.state = GameState.gameWin then
    let w2 := handle_stage_progression w1
    (w2, w2.showWinScreen)
  else (w1, false)

/-! ## Helper lemmas -/

theorem le_clampQ {v lo hi : ℚ} (h : lo ≤ hi) : lo ≤ clampQ v lo hi :=
  le_min (le_max_right _ _) h

theorem clampQ_le (v lo hi : ℚ) : clampQ v lo hi ≤ hi :=
  min_le_right _ _

theorem boundaryLR : BOUNDARY_LEFT ≤ BOUNDARY_RIGHT := by
  norm_num [BOUNDARY_LEFT, BOUNDARY_RIGHT]

theorem boundaryBT : BOUNDARY_BOTTOM ≤ BOUNDARY_TOP := by
  norm_num [BOUNDARY_BOTTOM, BOUNDARY_TOP]

theorem bottom_eq_ground : BOUNDARY_BOTTOM = GROUND_Y := by
  norm_num [BOUNDARY_BOTTOM, GROUND_Y]

theorem groundCollision_fst_ge (y v : ℚ) (j : JumpType) :
    GROUND_Y ≤ (groundCollision y v j).1 := by
  unfold groundCollision
  split
  · exact le_refl _
  · exact le_of_not_lt (by assumption)

/-! ## Claims -/

/-- C6: for a boss with attack pattern
`RapidFire{burst_count = 3, burst_delay = 0.1, cooldown = 2.0}`, starting
from attack state `timer = 0, burst_count = 0`, with a player present on
every tick (dt = 0.1s): exactly 3 projectiles are fired in the burst, on
consecutive expiries of the 0.1s burst timer (ticks 2, 3, 4); after the
third shot the state holds `timer = cooldown = 2.0, burst_count = 0`; the
next burst is armed when that timer expires 2.0s later and its first shot
falls on tick 25, so no shot occurs between tick 4 and tick 25. -/
theorem C6_rapid_fire_scenario :
    (rapidFireRun ⟨2, 3, 1/10⟩ (1/10) 25 BossAttackState.start).2 =
      [0, 1, 1, 1,
       0, 0, 0, 0, 0, 0, 0, 0, 0, 0, 0, 0, 0, 0, 0, 0, 0, 0, 0, 0,
       1] ∧
    (rapidFireRun ⟨2, 3, 1/10⟩ (1/10) 25 BossAttackState.start).2.sum = 4 ∧
    (rapidFireRun ⟨2, 3, 1/10⟩ (1/10) 4 BossAttackState.start).1 =
      { timer := 2, burstCount := 0, burstTimer := 0 } := by
  refine ⟨?_, ?_, ?_⟩ <;>
    norm_num [rapidFireRun, boss_attacks_rapid_fire, BossAttackState.start]

/-- C1 counterexample: on a tick with a `Dash` component present,
`player_movement` adds the dash displacement and returns before the
boundary clamp, so a player starting exactly at the right boundary
(an in-bounds position) with a rightward dash and dt = 0.1 ends at
x = 390 > BOUNDARY_RIGHT.  This refutes the claim for dash ticks. -/
theorem C1_dash_counterexample :
    (BOUNDARY_LEFT ≤ (350 : ℚ) ∧ (350 : ℚ) ≤ BOUNDARY_RIGHT ∧
      BOUNDARY_BOTTOM ≤ (-198 : ℚ) ∧ (-198 : ℚ) ≤ BOUNDARY_TOP) ∧
    (player_movement (fun _ => 1)
        ⟨false, false, false, false, false, false, false⟩ (1/10)
        { x := 350, y := -198, velY := 0, jumpType := JumpType.none,
          facing := ⟨1, 0⟩, chargeTimer := 0, isCharging := false,
          dash := some ⟨1/5, 1⟩, hasKnockback := false }).x = 390 ∧
    ¬ ((390 : ℚ) ≤ BOUNDARY_RIGHT) := by
  refine ⟨?_, ?_, ?_⟩
  · norm_num [BOUNDARY_LEFT, BOUNDARY_RIGHT, BOUNDARY_BOTTOM, BOUNDARY_TOP]
  · norm_num [player_movement, DASH_SPEED, Vec2.zero]
  · norm_num [BOUNDARY_RIGHT]

/-- C1 (amended): on every tick with no `Dash` component present,
`player_movement` leaves the player with
`BOUNDARY_LEFT ≤ x ≤ BOUNDARY_RIGHT` and `BOUNDARY_BOTTOM ≤ y` (the x and
pre-jump y are clamped, and the ground collision floors y at
`GROUND_Y = BOUNDARY_BOTTOM`; upward jump integration is applied after the
clamp, so `y ≤ BOUNDARY_TOP` is not restored on jump ticks), and every
`apply_knockback` tick clamps the position into the full boundary
rectangle.  Ticks with a `Dash` present are exempt: the dash displacement
is unclamped (see the counterexample). -/
theorem C1_no_dash_and_knockback_bounds :
    (∀ (invLen : Vec2 → ℚ) (inp : MoveInput) (dt : ℚ) (s : MoveState),
      s.dash = none →
      BOUNDARY_LEFT ≤ (player_movement invLen inp dt s).x ∧
      (player_movement invLen inp dt s).x ≤ BOUNDARY_RIGHT ∧
      BOUNDARY_BOTTOM ≤ (player_movement invLen inp dt s).y) ∧
    (∀ (dt : ℚ) (s : KnockbackState),
      BOUNDARY_LEFT ≤ (apply_knockback dt s).1.1 ∧
      (apply_knockback dt s).1.1 ≤ BOUNDARY_RIGHT ∧
      BOUNDARY_BOTTOM ≤ (apply_knockback dt s).1.2 ∧
      (apply_knockback dt s).1.2 ≤ BOUNDARY_TOP) := by
  constructor
  · intro invLen inp dt s hdash
    simp only [player_movement, hdash]
    split
    · exact ⟨le_clampQ boundaryLR, clampQ_le _ _ _, le_clampQ boundaryBT⟩
    · exact ⟨le_clampQ boundaryLR, clampQ_le _ _ _,
        bottom_eq_ground.trans_le (groundCollision_fst_ge _ _ _)⟩
  · intro dt s
    exact ⟨le_clampQ boundaryLR, clampQ_le _ _ _,
      le_clampQ boundaryBT, clampQ_le _ _ _⟩

/-- C1 witness for the amended theorem: a concrete no-dash tick and a
concrete knockback tick both end inside the boundary rectangle. -/
theorem C1_no_dash_and_knockback_bounds_witness :
    (BOUNDARY_LEFT ≤ (player_movement (fun _ => 1)
        ⟨false, true, false, false, false, false, false⟩ (1/10)
        { x := 349, y := -198, velY := 0, jumpType := JumpType.none,
          facing := ⟨1, 0⟩, chargeTimer := 0, isCharging := false,
          dash := none, hasKnockback := false }).x ∧
      (player_movement (fun _ => 1)
        ⟨false, true, false, false, false, false, false⟩ (1/10)
        { x := 349, y := -198, velY := 0, jumpType := JumpType.none,
          facing := ⟨1, 0⟩, chargeTimer := 0, isCharging := false,
          dash := none, hasKnockback := false }).x ≤ BOUNDARY_RIGHT) ∧
    BOUNDARY_LEFT ≤ (apply_knockback (1/10)
        { x := 340, y := 0, kb := ⟨⟨700, 0⟩, 7/10⟩ }).1.1 := by
  have h := C1_no_dash_and_knockback_bounds
  exact ⟨⟨(h.1 (fun _ => 1) _ (1/10) _ rfl).1, (h.1 (fun _ => 1) _ (1/10) _ rfl).2.1⟩,
    (h.2 (1/10) _).1⟩

/-- C2 counterexample: one tick of `boss_projectile_player_collision` with
dt = 0.1 and two live boss projectiles, neither of which collides with the
player, applies no damage but decrements the invincibility timer once per
projectile: the timer falls from 1 to 4/5 (= 1 - 2·dt), not to 9/10
(= 1 - dt), refuting "decremented by dt exactly once ... regardless of how
many boss projectiles currently exist". -/
theorem C2_double_decrement_counterexample :
    (boss_projectile_player_collision (fun v => v) (1/10) 15
        [⟨⟨300, 100⟩, ⟨1, 0⟩⟩, ⟨⟨300, 150⟩, ⟨1, 0⟩⟩]
        { pos := ⟨0, -198⟩, hp := 100, hpMax := 100,
          inv := some 1, kb := none }).hp = 100 ∧
    (boss_projectile_player_collision (fun v => v) (1/10) 15
        [⟨⟨300, 100⟩, ⟨1, 0⟩⟩, ⟨⟨300, 150⟩, ⟨1, 0⟩⟩]
        { pos := ⟨0, -198⟩, hp := 100, hpMax := 100,
          inv := some 1, kb := none }).inv = some (4/5) ∧
    ¬ (some ((4 : ℚ)/5) = some ((9 : ℚ)/10)) := by
  refine ⟨?_, ?_, ?_⟩
  · norm_num [boss_projectile_player_collision, bossProjectileHitStep,
      invincibilityGate, check_aabb_collision, BOSS_PROJECTILE_SIZE,
      PLAYER_SIZE, Vec2.scale]
  · norm_num [boss_projectile_player_collision, bossProjectileHitStep,
      invincibilityGate, check_aabb_collision, BOSS_PROJECTILE_SIZE,
      PLAYER_SIZE, Vec2.scale]
  · norm_num

/-- C2 (amended): each execution of the shared invincibility gate
decrements the timer by dt, and the gate runs once per live boss
projectile in `boss_projectile_player_collision` and once per player in
`player_boss_collision`.  While the timer stays positive the player is
immune and otherwise untouched, so a damage-free tick with k projectiles
leaves the timer at `t - k·dt` after the projectile system and at
`t - dt` after the body-collision system — (k+1) decrements per tick, not
exactly one. -/
theorem C2_gate_decrements_per_check :
    (∀ (unitOf : Vec2 → Vec2) (dt damage t : ℚ) (projs : List BossProjEntity)
        (p : PlayerHitState),
      p.inv = some t → 0 ≤ dt → 0 < t - projs.length * dt →
      (boss_projectile_player_collision unitOf dt damage projs p).inv
          = some (t - projs.length * dt) ∧
      (boss_projectile_player_collision unitOf dt damage projs p).hp = p.hp) ∧
    (∀ (sqrtFn : ℚ → ℚ) (unitOf : Vec2 → Vec2) (dt damage t : ℚ)
        (bosses : List Vec2) (p : PlayerHitState),
      p.inv = some t → 0 < t - dt →
      (player_boss_collision sqrtFn unitOf dt damage bosses p).inv = some (t - dt) ∧
      (player_boss_collision sqrtFn unitOf dt damage bosses p).hp = p.hp) := by
  constructor
  · intro unitOf dt damage t projs
    induction projs generalizing t with
    | nil =>
      intro p hinv _ _
      simpa [boss_projectile_player_collision] using hinv
    | cons proj rest ih =>
      intro p hinv hdt hpos
      have hlen : ((proj :: rest).length : ℚ) * dt = dt + rest.length * dt := by
        push_cast [List.length_cons]
        ring
      have hstep : 0 < t - dt := by
        rw [hlen] at hpos
        have h0 : (0 : ℚ) ≤ (rest.length : ℚ) * dt :=
          mul_nonneg (by positivity) hdt
        linarith
      have hgate : invincibilityGate dt p.inv = (true, some (t - dt)) := by
        simp [invincibilityGate, hinv, hstep]
      have hone : (bossProjectileHitStep unitOf dt damage proj p).1
          = { p with inv := some (t - dt) } := by
        simp [bossProjectileHitStep, hgate]
      have htail := ih (t - dt) { p with inv := some (t - dt) } rfl hdt
        (by rw [hlen] at hpos; linarith)
      rw [boss_projectile_player_collision] at htail ⊢
      rw [List.foldl_cons, hone]
      refine ⟨?_, htail.2⟩
      rw [htail.1, hlen]
      congr 1
      ring
  · intro sqrtFn unitOf dt damage t bosses p hinv hpos
    have hgate : invincibilityGate dt p.inv = (true, some (t - dt)) := by
      simp [invincibilityGate, hinv, hpos]
    constructor <;> simp [player_boss_collision, hgate]

/-- C2 witness for the amended theorem: with timer 1, dt = 0.1 and two
non-colliding projectiles, the timer is 4/5 after the projectile system,
and 9/10 after the body-collision system run alone. -/
theorem C2_gate_decrements_per_check_witness :
    (boss_projectile_player_collision (fun v => v) (1/10) 15
        [⟨⟨300, 100⟩, ⟨1, 0⟩⟩, ⟨⟨300, 150⟩, ⟨1, 0⟩⟩]
        { pos := ⟨0, -198⟩, hp := 100, hpMax := 100,
          inv := some 1, kb := none }).inv = some (1 - 2 * (1/10)) ∧
    (player_boss_collision (fun _ => 1) (fun v => v) (1/10) 10 [⟨300, -198⟩]
        { pos := ⟨0, -198⟩, hp := 100, hpMax := 100,
          inv := some 1, kb := none }).inv = some (1 - 1/10) := by
  have h := C2_gate_decrements_per_check
  refine ⟨?_, ?_⟩
  · have := (h.1 (fun v => v) (1/10) 15 1
      [⟨⟨300, 100⟩, ⟨1, 0⟩⟩, ⟨⟨300, 150⟩, ⟨1, 0⟩⟩]
      { pos := ⟨0, -198⟩, hp := 100, hpMax := 100, inv := some 1, kb := none }
      rfl (by norm_num) (by norm_num)).1
    rw [this]
    norm_num
  · have := (h.2 (fun _ => 1) (fun v => v) (1/10) 10 1 [⟨300, -198⟩]
      { pos := ⟨0, -198⟩, hp := 100, hpMax := 100, inv := some 1, kb := none }
      rfl (by norm_num)).1
    rw [this]

/-- C3: when the boss's Hp reaches 0 while the player is alive,
`check_game_outcome` records the defeated boss's type and routes to
`GameWin`; on entering `GameWin`, `handle_stage_progression` sends the
game to `StageUpgrade` with no win screen when `CurrentStage < MAX_STAGES`
and shows the win screen when `CurrentStage ≥ MAX_STAGES`; and
`MAX_STAGES = 2`. -/
theorem C3_boss_defeat_progression :
    ∀ w : OutcomeWorld, 0 < w.playerHp → w.bossHp ≤ 0 →
      (bossDefeatPipeline w).1.defeated = some w.bossType ∧
      (w.stage < MAX_STAGES →
        (bossDefeatPipeline w).1.state = GameState.stageUpgrade ∧
        (bossDefeatPipeline w).2 = false) ∧
      (MAX_STAGES ≤ w.stage →
        (bossDefeatPipeline w).1.state = GameState.gameWin ∧
        (bossDefeatPipeline w).2 = true) ∧
      MAX_STAGES = 2 := by
  intro w hp hb
  have hnp : ¬ w.playerHp ≤ 0 := not_le.mpr hp
  refine ⟨?_, fun hlt => ?_, fun hge => ?_, rfl⟩
  · by_cases hlt : w.stage < MAX_STAGES <;>
      simp [bossDefeatPipeline, check_game_outcome, handle_stage_progression,
        hnp, hb, hlt]
  · simp [bossDefeatPipeline, check_game_outcome, handle_stage_progression,
      hnp, hb, hlt]
  · have hnlt : ¬ w.stage < MAX_STAGES := not_lt.mpr hge
    simp [bossDefeatPipeline, check_game_outcome, handle_stage_progression,
      hnp, hb, hnlt]

/-- C3 witness: a live player (HP 50) defeating the boss at stage 1 lands
in `StageUpgrade` with no win screen, at stage 2 keeps `GameWin` with the
win screen shown; the boss type is recorded in both cases. -/
theorem C3_boss_defeat_progression_witness :
    (bossDefeatPipeline
        { playerHp := 50, bossHp := 0, bossType := BossType.default,
          stage := 1, defeated := none, showWinScreen := false,
          state := GameState.inGame }).1.state = GameState.stageUpgrade ∧
    (bossDefeatPipeline
        { playerHp := 50, bossHp := 0, bossType := BossType.default,
          stage := 1, defeated := none, showWinScreen := false,
          state := GameState.inGame }).2 = false ∧
    (bossDefeatPipeline
        { playerHp := 50, bossHp := 0, bossType := BossType.default,
          stage := 1, defeated := none, showWinScreen := false,
          state := GameState.inGame }).1.defeated = some BossType.default ∧
    (bossDefeatPipeline
        { playerHp := 50, bossHp := 0, bossType := BossType.default,
          stage := 2, defeated := none, showWinScreen := false,
          state := GameState.inGame }).1.state = GameState.gameWin ∧
    (bossDefeatPipeline
        { playerHp := 50, bossHp := 0, bossType := BossType.default,
          stage := 2, defeated := none, showWinScreen := false,
          state := GameState.inGame }).2 = true := by
  have h1 := C3_boss_defeat_progression
    { playerHp := 50, bossHp := 0, bossType := BossType.default,
      stage := 1, defeated := none, showWinScreen := false,
      state := GameState.inGame } (by norm_num) (by norm_num)
  have h2 := C3_boss_defeat_progression
    { playerHp := 50, bossHp := 0, bossType := BossType.default,
      stage := 2, defeated := none, showWinScreen := false,
      state := GameState.inGame } (by norm_num) (by norm_num)
  exact ⟨(h1.2.1 (by norm_num [MAX_STAGES])).1, (h1.2.1 (by norm_num [MAX_STAGES])).2,
    h1.1, (h2.2.2.1 (by norm_num [MAX_STAGES])).1, (h2.2.2.1 (by norm_num [MAX_STAGES])).2⟩

/-- C4: for every reachable selection index (the navigation keeps the
index in {0, 1}) and with a defeated boss recorded, confirming on the
StageUpgrade screen applies exactly the upgrade selected — index 0
restores HP capped at the current max without touching the weapon or
defense fields, index 1 acquires the defeated boss's weapon without
touching HP or defense — and in every case increments `CurrentStage` by 1
and transitions to `InGame`; the defense multiplier is never changed by a
confirm. -/
theorem C4_upgrade_confirm :
    (∀ (idx : ℕ) (bt : BossType) (stage : ℕ) (u : PlayerUpgrades),
      idx ≤ 1 →
      (handleUpgradeConfirm idx (some bt) stage u).2.1 = stage + 1 ∧
      (handleUpgradeConfirm idx (some bt) stage u).2.2 = GameState.inGame ∧
      ((idx = 0 ∧ (handleUpgradeConfirm idx (some bt) stage u).1 = restoreHpUpgrade u) ∨
       (idx = 1 ∧ (handleUpgradeConfirm idx (some bt) stage u).1
          = acquireWeaponUpgrade (some bt) u)) ∧
      (handleUpgradeConfirm idx (some bt) stage u).1.defenseMultiplier
        = u.defenseMultiplier) ∧
    (∀ u : PlayerUpgrades,
      (restoreHpUpgrade u).currentHp ≤ 100 + u.maxHpBonus ∧
      (restoreHpUpgrade u).hasBossWeapon = u.hasBossWeapon ∧
      (restoreHpUpgrade u).bossWeaponType = u.bossWeaponType) ∧
    (∀ (bt : BossType) (u : PlayerUpgrades),
      (acquireWeaponUpgrade (some bt) u).hasBossWeapon = true ∧
      (acquireWeaponUpgrade (some bt) u).bossWeaponType = some bt ∧
      (acquireWeaponUpgrade (some bt) u).currentHp = u.currentHp) ∧
    (∀ (upKey downKey : Bool) (idx : ℕ), idx ≤ 1 →
      upgradeSelectionNav upKey downKey idx ≤ 1) := by
  refine ⟨?_, ?_, ?_, ?_⟩
  · intro idx bt stage u hidx
    rcases Nat.le_one_iff_eq_zero_or_eq_one.mp hidx with h0 | h1
    · subst h0
      exact ⟨rfl, rfl, Or.inl ⟨rfl, rfl⟩, rfl⟩
    · subst h1
      refine ⟨rfl, rfl, Or.inr ⟨rfl, rfl⟩, ?_⟩
      simp [handleUpgradeConfirm, acquireWeaponUpgrade]
  · intro u
    refine ⟨?_, rfl, rfl⟩
    simp only [restoreHpUpgrade]
    exact min_le_right _ _
  · intro bt u
    exact ⟨rfl, rfl, rfl⟩
  · intro upKey downKey idx hidx
    rcases Nat.le_one_iff_eq_zero_or_eq_one.mp hidx with h | h <;> subst h <;>
      cases upKey <;> cases downKey <;>
        simp [upgradeSelectionNav]

/-- C4 witness: from the default upgrades at stage 1, confirming index 0
moves to stage 2 in `InGame` with HP restored to 100 (capped at the max
of 100), and confirming index 1 acquires the default boss's weapon; the
navigation keeps the index at most 1. -/
theorem C4_upgrade_confirm_witness :
    (handleUpgradeConfirm 0 (some BossType.default) 1 PlayerUpgrades.start).2.1 = 2 ∧
    (handleUpgradeConfirm 0 (some BossType.default) 1 PlayerUpgrades.start).2.2
      = GameState.inGame ∧
    (handleUpgradeConfirm 1 (some BossType.default) 1 PlayerUpgrades.start).1
      = acquireWeaponUpgrade (some BossType.default) PlayerUpgrades.start ∧
    upgradeSelectionNav false true 0 ≤ 1 := by
  have h := C4_upgrade_confirm
  have h0 := h.1 0 BossType.default 1 PlayerUpgrades.start (by norm_num)
  have h1 := h.1 1 BossType.default 1 PlayerUpgrades.start (by norm_num)
  refine ⟨h0.1, h0.2.1, ?_, h.2.2.2 false true 0 (by norm_num)⟩
  rcases h1.2.2.1 with ⟨hbad, _⟩ | ⟨_, hgood⟩
  · exact absurd hbad (by norm_num)
  · exact hgood

/-- C5 counterexample: `projectile_boss_collision` classifies a shot as
charged with `charge_level >= CHARGE_SHOT_MIN_TIME / CHARGE_SHOT_MAX_TIME`
(non-strict), while the claim's charged branch requires charge_level to
strictly exceed the threshold.  With threshold ratio 1/2, multiplier 3 and
base damage 10, a projectile at `charge_level = 1/2` (not strictly above
the threshold, so the claim's otherwise-branch predicts damage exactly 10
and no knockback) deals multiplied damage 20 and applies knockback. -/
theorem C5_threshold_counterexample :
    (projectile_boss_collision (fun v => v) 10 (1/2) 3
        { pos := ⟨0, 0⟩, direction := ⟨1, 0⟩, chargeLevel := 1/2 }
        { pos := ⟨0, 0⟩, hp := 100, hpMax := 200, kb := none }).2 = true ∧
    (projectile_boss_collision (fun v => v) 10 (1/2) 3
        { pos := ⟨0, 0⟩, direction := ⟨1, 0⟩, chargeLevel := 1/2 }
        { pos := ⟨0, 0⟩, hp := 100, hpMax := 200, kb := none }).1.hp = 80 ∧
    (projectile_boss_collision (fun v => v) 10 (1/2) 3
        { pos := ⟨0, 0⟩, direction := ⟨1, 0⟩, chargeLevel := 1/2 }
        { pos := ⟨0, 0⟩, hp := 100, hpMax := 200, kb := none }).1.kb.isSome = true ∧
    ¬ ((1 : ℚ)/2 > 1/2) ∧
    ¬ ((80 : ℚ) = 100 - 10) := by
  refine ⟨?_, ?_, ?_, ?_, ?_⟩ <;>
    norm_num [projectile_boss_collision, check_aabb_collision, normalizeOrZero,
      Vec2.scale, Vec2.zero, BOSS_SIZE, KNOCKBACK_FORCE, KNOCKBACK_DURATION]

/-- C5 (amended): for every player projectile that collides with the boss,
the projectile despawns; if its charge level is at least (`>=`, not
strictly above) the threshold ratio, the boss's Hp is reduced by
`base × (1 + charge_level × (multiplier − 1))` (floored at 0) and receives
knockback along the projectile's direction; if strictly below, the boss
loses exactly the base damage (floored at 0) and its knockback is
untouched; at `charge_level = 1` with multiplier 3 the damage is
`base × 3`. -/
theorem C5_charge_damage_and_knockback :
    ∀ (unitOf : Vec2 → Vec2) (baseDamage chargedThreshold chargeMultiplier : ℚ)
      (proj : PlayerProjEntity) (boss : BossHitState),
      check_aabb_collision proj.pos
          (Vec2.scale ⟨10, 10⟩ (1 + proj.chargeLevel * (3/2))) boss.pos BOSS_SIZE
        = true →
      (projectile_boss_collision unitOf baseDamage chargedThreshold
          chargeMultiplier proj boss).2 = true ∧
      (chargedThreshold ≤ proj.chargeLevel →
        (projectile_boss_collision unitOf baseDamage chargedThreshold
            chargeMultiplier proj boss).1.hp
          = max (boss.hp - baseDamage * (1 + proj.chargeLevel * (chargeMultiplier - 1))) 0 ∧
        (projectile_boss_collision unitOf baseDamage chargedThreshold
            chargeMultiplier proj boss).1.kb
          = some ⟨Vec2.scale (normalizeOrZero unitOf proj.direction) KNOCKBACK_FORCE,
                  KNOCKBACK_DURATION⟩) ∧
      (proj.chargeLevel < chargedThreshold →
        (projectile_boss_collision unitOf baseDamage chargedThreshold
            chargeMultiplier proj boss).1.hp = max (boss.hp - baseDamage) 0 ∧
        (projectile_boss_collision unitOf baseDamage chargedThreshold
            chargeMultiplier proj boss).1.kb = boss.kb) ∧
      (proj.chargeLevel = 1 → chargeMultiplier = 3 → chargedThreshold ≤ 1 →
        (projectile_boss_collision unitOf baseDamage chargedThreshold
            chargeMultiplier proj boss).1.hp = max (boss.hp - baseDamage * 3) 0) := by
  intro unitOf baseDamage chargedThreshold chargeMultiplier proj boss hcol
  by_cases hch : chargedThreshold ≤ proj.chargeLevel
  · have hhit : (projectile_boss_collision unitOf baseDamage chargedThreshold
        chargeMultiplier proj boss).2 = true := by
      simp [projectile_boss_collision, hcol, hch]
    have hhp : (projectile_boss_collision unitOf baseDamage chargedThreshold
        chargeMultiplier proj boss).1.hp
        = max (boss.hp - baseDamage * (1 + proj.chargeLevel * (chargeMultiplier - 1))) 0 := by
      simp [projectile_boss_collision, hcol, hch]
    have hkb : (projectile_boss_collision unitOf baseDamage chargedThreshold
        chargeMultiplier proj boss).1.kb
        = some ⟨Vec2.scale (normalizeOrZero unitOf proj.direction) KNOCKBACK_FORCE,
                KNOCKBACK_DURATION⟩ := by
      simp [projectile_boss_collision, hcol, hch]
    refine ⟨hhit, fun _ => ⟨hhp, hkb⟩, fun hlt => absurd hch (not_le.mpr hlt), ?_⟩
    intro h1 h3 _
    rw [hhp, h1, h3]
    norm_num
  · have hhit : (projectile_boss_collision unitOf baseDamage chargedThreshold
        chargeMultiplier proj boss).2 = true := by
      simp [projectile_boss_collision, hcol, hch]
    have hhp : (projectile_boss_collision unitOf baseDamage chargedThreshold
        chargeMultiplier proj boss).1.hp = max (boss.hp - baseDamage) 0 := by
      simp [projectile_boss_collision, hcol, hch]
    have hkb : (projectile_boss_collision unitOf baseDamage chargedThreshold
        chargeMultiplier proj boss).1.kb = boss.kb := by
      simp [projectile_boss_collision, hcol, hch]
    refine ⟨hhit, fun hge => absurd hge hch, fun _ => ⟨hhp, hkb⟩, ?_⟩
    intro h1 _ hthr
    exact absurd (h1 ▸ hthr) hch

/-- C5 witness for the amended theorem: a fully-charged projectile
(charge level 1, threshold 1/2, multiplier 3, base damage 10) hitting a
boss at 100 HP leaves it at 70 = 100 − 10×3 with knockback applied. -/
theorem C5_charge_damage_and_knockback_witness :
    (projectile_boss_collision (fun v => v) 10 (1/2) 3
        { pos := ⟨0, 0⟩, direction := ⟨1, 0⟩, chargeLevel := 1 }
        { pos := ⟨0, 0⟩, hp := 100, hpMax := 200, kb := none }).1.hp
      = max (100 - 10 * 3) 0 ∧
    (projectile_boss_collision (fun v => v) 10 (1/2) 3
        { pos := ⟨0, 0⟩, direction := ⟨1, 0⟩, chargeLevel := 1 }
        { pos := ⟨0, 0⟩, hp := 100, hpMax := 200, kb := none }).2 = true := by
  have h := C5_charge_damage_and_knockback (fun v => v) 10 (1/2) 3
    { pos := ⟨0, 0⟩, direction := ⟨1, 0⟩, chargeLevel := 1 }
    { pos := ⟨0, 0⟩, hp := 100, hpMax := 200, kb := none }
    (by norm_num [check_aabb_collision, Vec2.scale, BOSS_SIZE])
  exact ⟨h.2.2.2 rfl rfl (by norm_num), h.1⟩

/-- C7: on jump release the outcome is decided by
`charge_ratio = clamp(timer / MAX_CHARGE_TIME, 0, 1)`: strictly below
`SMALL_JUMP_CHARGE_RATIO` gives `JumpType::Small` with the small-jump
impulse (350.5) and at or above gives `JumpType::High` with the high-jump
impulse (620); and on a grounded, charging, release tick,
`player_movement` installs exactly this outcome as the new jump type and
vertical velocity (the hold timer gains this tick's dt if the button was
still held). -/
theorem C7_jump_charge_boundary :
    (∀ timer : ℚ, clampQ (timer / MAX_CHARGE_TIME) 0 1 < smallJumpChargeRatio →
      jumpReleaseOutcome timer = (JumpType.small, SMALL_JUMP_STRENGTH)) ∧
    (∀ timer : ℚ, smallJumpChargeRatio ≤ clampQ (timer / MAX_CHARGE_TIME) 0 1 →
      jumpReleaseOutcome timer = (JumpType.high, HIGH_JUMP_STRENGTH)) ∧
    (∀ (invLen : Vec2 → ℚ) (inp : MoveInput) (dt : ℚ) (s : MoveState),
      0 ≤ dt → s.dash = none → inp.jumpJustPressed = false →
      inp.jumpJustReleased = true → s.isCharging = true → s.y ≤ GROUND_Y →
      (player_movement invLen inp dt s).jumpType =
        (jumpReleaseOutcome
          (if inp.jumpPressed then s.chargeTimer + dt else s.chargeTimer)).1 ∧
      (player_movement invLen inp dt s).velY =
        (jumpReleaseOutcome
          (if inp.jumpPressed then s.chargeTimer + dt else s.chargeTimer)).2) := by
  have houtcome_pos : ∀ t : ℚ, 0 ≤ (jumpReleaseOutcome t).2 := by
    intro t
    simp only [jumpReleaseOutcome]
    split <;> norm_num [SMALL_JUMP_STRENGTH, HIGH_JUMP_STRENGTH]
  refine ⟨?_, ?_, ?_⟩
  · intro timer h
    simp only [jumpReleaseOutcome]
    rw [if_pos h]
  · intro timer h
    simp only [jumpReleaseOutcome]
    rw [if_neg (not_lt.mpr h)]
  · intro invLen inp dt s hdt hdash hjp hjr hch hy
    have hyB : s.y ≤ BOUNDARY_BOTTOM := bottom_eq_ground ▸ hy
    have hog : clampQ s.y BOUNDARY_BOTTOM BOUNDARY_TOP = GROUND_Y := by
      rw [clampQ, max_eq_right hyB, min_eq_left boundaryBT, bottom_eq_ground]
    have hnofall : ∀ t : ℚ,
        ¬ (GROUND_Y + (jumpReleaseOutcome t).2 * dt < GROUND_Y) := by
      intro t
      have := mul_nonneg (houtcome_pos t) hdt
      push_neg
      linarith
    constructor <;>
      simp [player_movement, hdash, hjp, hjr, hch, hog, groundCollision,
        hnofall, houtcome_pos]

/-- C7 witness: a hold time of 0.01s (ratio 0.05 < 0.43) gives the small
jump and a hold time of 0.2s (ratio 1 ≥ 0.43) gives the high jump; on a
concrete grounded release tick `player_movement` installs the small jump
for a stored hold of 0.01s with the button already released. -/
theorem C7_jump_charge_boundary_witness :
    jumpReleaseOutcome (1/100) = (JumpType.small, SMALL_JUMP_STRENGTH) ∧
    jumpReleaseOutcome (1/5) = (JumpType.high, HIGH_JUMP_STRENGTH) ∧
    (player_movement (fun _ => 1)
        ⟨false, false, false, false, false, false, true⟩ (1/10)
        { x := 0, y := -198, velY := 0, jumpType := JumpType.none,
          facing := ⟨1, 0⟩, chargeTimer := 1/100, isCharging := true,
          dash := none, hasKnockback := false }).jumpType = JumpType.small := by
  have h := C7_jump_charge_boundary
  have h1 := h.1 (1/100) (by norm_num [clampQ, MAX_CHARGE_TIME, smallJumpChargeRatio])
  have h2 := h.2.1 (1/5) (by norm_num [clampQ, MAX_CHARGE_TIME, smallJumpChargeRatio])
  have h3 := (h.2.2 (fun _ => 1)
    ⟨false, false, false, false, false, false, true⟩ (1/10)
    { x := 0, y := -198, velY := 0, jumpType := JumpType.none,
      facing := ⟨1, 0⟩, chargeTimer := 1/100, isCharging := true,
      dash := none, hasKnockback := false }
    (by norm_num) rfl rfl rfl rfl (by norm_num [GROUND_Y])).1
  refine ⟨h1, h2, ?_⟩
  rw [h3]
  simp only [Bool.false_eq_true, if_false, h1]

/-- Shared helper: the clamped damage update `max (hp - damage) 0` keeps Hp
inside `[0, hpMax]` whenever it was and the damage is nonnegative. -/
theorem hpDamageClamp {hp hpMax damage : ℚ} (h0 : 0 ≤ hp) (h1 : hp ≤ hpMax)
    (hd : 0 ≤ damage) : 0 ≤ max (hp - damage) 0 ∧ max (hp - damage) 0 ≤ hpMax :=
  ⟨le_max_right _ _, max_le (by linarith) (le_trans h0 h1)⟩

/-- Shared helper: one projectile step of `boss_projectile_player_collision`
preserves the Hp invariant and never changes `hpMax`. -/
theorem bossProjectileHitStep_hp (unitOf : Vec2 → Vec2) (dt damage : ℚ)
    (proj : BossProjEntity) (p : PlayerHitState) (hd : 0 ≤ damage)
    (h0 : 0 ≤ p.hp) (h1 : p.hp ≤ p.hpMax) :
    0 ≤ (bossProjectileHitStep unitOf dt damage proj p).1.hp ∧
    (bossProjectileHitStep unitOf dt damage proj p).1.hp ≤ p.hpMax ∧
    (bossProjectileHitStep unitOf dt damage proj p).1.hpMax = p.hpMax := by
  by_cases hcol : check_aabb_collision proj.pos BOSS_PROJECTILE_SIZE p.pos
      PLAYER_SIZE = true
  · rcases hgate : invincibilityGate dt p.inv with ⟨b, oi⟩
    cases b
    · have hres : (bossProjectileHitStep unitOf dt damage proj p).1
          = { p with hp := max (p.hp - damage) 0,
                     inv := some INVINCIBILITY_DURATION,
                     kb := some ⟨Vec2.scale (normalizeOrZero unitOf proj.direction)
                              KNOCKBACK_FORCE, KNOCKBACK_DURATION⟩ } := by
        simp [bossProjectileHitStep, hgate, hcol]
      rw [hres]
      exact ⟨(hpDamageClamp h0 h1 hd).1, (hpDamageClamp h0 h1 hd).2, rfl⟩
    · have hres : (bossProjectileHitStep unitOf dt damage proj p).1
          = { p with inv := oi } := by
        simp [bossProjectileHitStep, hgate]
      rw [hres]
      exact ⟨h0, h1, rfl⟩
  · rcases hgate : invincibilityGate dt p.inv with ⟨b, oi⟩
    cases b
    · have hres : (bossProjectileHitStep unitOf dt damage proj p).1
          = { p with inv := oi } := by
        simp [bossProjectileHitStep, hgate, hcol]
      rw [hres]
      exact ⟨h0, h1, rfl⟩
    · have hres : (bossProjectileHitStep unitOf dt damage proj p).1
          = { p with inv := oi } := by
        simp [bossProjectileHitStep, hgate]
      rw [hres]
      exact ⟨h0, h1, rfl⟩

/-- C8: for every entity with Hp, `0 ≤ current ≤ max` holds at player
spawn (preserved HP clamped to the possibly-upgraded max), at boss spawn
(200/200), and after every damage application of the three collision
systems (each clamps below at 0 and never raises current), and the
HP-restore upgrade also stays within `[0, max]`. -/
theorem C8_hp_invariant :
    (∀ u : PlayerUpgrades, 0 ≤ u.currentHp → 0 ≤ u.maxHpBonus →
      0 ≤ (spawnPlayerHp (some u)).current ∧
      (spawnPlayerHp (some u)).current ≤ (spawnPlayerHp (some u)).max) ∧
    (0 ≤ (spawnPlayerHp none).current ∧
      (spawnPlayerHp none).current ≤ (spawnPlayerHp none).max) ∧
    (0 ≤ spawnBossHp.current ∧ spawnBossHp.current ≤ spawnBossHp.max) ∧
    (∀ (sqrtFn : ℚ → ℚ) (unitOf : Vec2 → Vec2) (dt damage : ℚ)
        (bosses : List Vec2) (p : PlayerHitState),
      0 ≤ damage → 0 ≤ p.hp → p.hp ≤ p.hpMax →
      0 ≤ (player_boss_collision sqrtFn unitOf dt damage bosses p).hp ∧
      (player_boss_collision sqrtFn unitOf dt damage bosses p).hp ≤ p.hpMax) ∧
    (∀ (unitOf : Vec2 → Vec2) (dt damage : ℚ) (projs : List BossProjEntity)
        (p : PlayerHitState),
      0 ≤ damage → 0 ≤ p.hp → p.hp ≤ p.hpMax →
      0 ≤ (boss_projectile_player_collision unitOf dt damage projs p).hp ∧
      (boss_projectile_player_collision unitOf dt damage projs p).hp ≤ p.hpMax) ∧
    (∀ (unitOf : Vec2 → Vec2) (baseDamage chargedThreshold chargeMultiplier : ℚ)
        (proj : PlayerProjEntity) (boss : BossHitState),
      0 ≤ baseDamage → 0 ≤ proj.chargeLevel → 1 ≤ chargeMultiplier →
      0 ≤ boss.hp → boss.hp ≤ boss.hpMax →
      0 ≤ (projectile_boss_collision unitOf baseDamage chargedThreshold
            chargeMultiplier proj boss).1.hp ∧
      (projectile_boss_collision unitOf baseDamage chargedThreshold
            chargeMultiplier proj boss).1.hp ≤ boss.hpMax) ∧
    (∀ u : PlayerUpgrades, 0 ≤ u.currentHp → 0 ≤ u.maxHpBonus →
      0 ≤ (restoreHpUpgrade u).currentHp ∧
      (restoreHpUpgrade u).currentHp ≤ 100 + u.maxHpBonus) := by
  refine ⟨?_, ?_, ?_, ?_, ?_, ?_, ?_⟩
  · intro u h0 hb
    have hmax : (0 : ℚ) ≤ 100 + u.maxHpBonus := by linarith
    constructor
    · show (0 : ℚ) ≤ min u.currentHp (100 + u.maxHpBonus)
      exact le_min h0 hmax
    · show min u.currentHp (100 + u.maxHpBonus) ≤ 100 + u.maxHpBonus
      exact min_le_right _ _
  · constructor
    · show (0 : ℚ) ≤ 100 + 0
      norm_num
    · show (100 : ℚ) + 0 ≤ 100 + 0
      norm_num
  · norm_num [spawnBossHp]
  · intro sqrtFn unitOf dt damage bosses p hd h0 h1
    rcases hgate : invincibilityGate dt p.inv with ⟨b, oi⟩
    cases b
    · rcases hfind : bosses.find? (fun b =>
          check_aabb_collision p.pos PLAYER_SIZE b BOSS_SIZE) with _ | bpos
      · have hres : player_boss_collision sqrtFn unitOf dt damage bosses p
            = { p with inv := oi } := by
          simp [player_boss_collision, hgate, hfind]
        rw [hres]
        exact ⟨h0, h1⟩
      · have hres : (player_boss_collision sqrtFn unitOf dt damage bosses p).hp
            = max (p.hp - damage) 0 := by
          simp [player_boss_collision, hgate, hfind]
        rw [hres]
        exact hpDamageClamp h0 h1 hd
    · have hres : player_boss_collision sqrtFn unitOf dt damage bosses p
          = { p with inv := oi } := by
        simp [player_boss_collision, hgate]
      rw [hres]
      exact ⟨h0, h1⟩
  · intro unitOf dt damage projs
    induction projs with
    | nil =>
      intro p _ h0 h1
      exact ⟨h0, h1⟩
    | cons proj rest ih =>
      intro p hd h0 h1
      have hstep := bossProjectileHitStep_hp unitOf dt damage proj p hd h0 h1
      have := ih (bossProjectileHitStep unitOf dt damage proj p).1 hd hstep.1
        (hstep.2.2 ▸ hstep.2.1)
      rw [boss_projectile_player_collision, List.foldl_cons]
      rw [boss_projectile_player_collision] at this
      exact ⟨this.1, le_trans this.2 (le_of_eq hstep.2.2)⟩
  · intro unitOf baseDamage chargedThreshold chargeMultiplier proj boss
      hbase hcl hmult h0 h1
    by_cases hcol : check_aabb_collision proj.pos
        (Vec2.scale ⟨10, 10⟩ (1 + proj.chargeLevel * (3/2))) boss.pos BOSS_SIZE
        = true
    · by_cases hch : chargedThreshold ≤ proj.chargeLevel
      · have hfac : (0 : ℚ) ≤ 1 + proj.chargeLevel * (chargeMultiplier - 1) := by
          have hmm := mul_nonneg hcl (by linarith : (0 : ℚ) ≤ chargeMultiplier - 1)
          linarith
        have hdmg : (0 : ℚ)
            ≤ baseDamage * (1 + proj.chargeLevel * (chargeMultiplier - 1)) :=
          mul_nonneg hbase hfac
        have hhp : (projectile_boss_collision unitOf baseDamage chargedThreshold
            chargeMultiplier proj boss).1.hp
            = max (boss.hp - baseDamage * (1 + proj.chargeLevel * (chargeMultiplier - 1))) 0 := by
          simp [projectile_boss_collision, hcol, hch]
        rw [hhp]
        exact hpDamageClamp h0 h1 hdmg
      · have hhp : (projectile_boss_collision unitOf baseDamage chargedThreshold
            chargeMultiplier proj boss).1.hp = max (boss.hp - baseDamage) 0 := by
          simp [projectile_boss_collision, hcol, hch]
        rw [hhp]
        exact hpDamageClamp h0 h1 hbase
    · have hhp : (projectile_boss_collision unitOf baseDamage chargedThreshold
          chargeMultiplier proj boss).1.hp = boss.hp := by
        simp [projectile_boss_collision, hcol]
      rw [hhp]
      exact ⟨h0, h1⟩
  · intro u h0 hb
    constructor
    · show (0 : ℚ) ≤ min (u.currentHp + HP_RESTORATION_AMOUNT) (100 + u.maxHpBonus)
      exact le_min (by norm_num [HP_RESTORATION_AMOUNT]; linarith) (by linarith)
    · show min (u.currentHp + HP_RESTORATION_AMOUNT) (100 + u.maxHpBonus)
          ≤ 100 + u.maxHpBonus
      exact min_le_right _ _

/-- C8 witness: concrete instances — spawning with preserved HP 80 under a
max of 100 gives 80/100; a boss-projectile hit for 15 damage from 100/100
gives 85 within bounds; the restore upgrade from 80 stays within 100. -/
theorem C8_hp_invariant_witness :
    0 ≤ (spawnPlayerHp (some ⟨0, 80, 1, false, none⟩)).current ∧
    (boss_projectile_player_collision (fun v => v) (1/10) 15
        [⟨⟨0, -198⟩, ⟨1, 0⟩⟩]
        { pos := ⟨0, -198⟩, hp := 100, hpMax := 100,
          inv := none, kb := none }).hp ≤ 100 ∧
    0 ≤ (restoreHpUpgrade ⟨0, 80, 1, false, none⟩).currentHp := by
  have h := C8_hp_invariant
  refine ⟨(h.1 _ (by norm_num) (by norm_num)).1, ?_,
    (h.2.2.2.2.2.2 _ (by norm_num) (by norm_num)).1⟩
  exact (h.2.2.2.2.1 (fun v => v) (1/10) 15 [⟨⟨0, -198⟩, ⟨1, 0⟩⟩]
    { pos := ⟨0, -198⟩, hp := 100, hpMax := 100, inv := none, kb := none }
    (by norm_num) (by norm_num) (by norm_num)).2

/-- Shared helper: `get_shoot_direction` always returns a direction —
every branch produces a vector with nonnegative y, so the downward-reject
branch is dead. -/
theorem get_shoot_direction_isSome (facing : Vec2) :
    (get_shoot_direction facing).isSome = true := by
  simp only [get_shoot_direction]
  split_ifs <;> simp_all
  linarith

/-- Shared helper: the charge-start/hold update keeps (or sets) the
charging flag whenever the entity was charging or a press with elapsed
cooldown starts a charge this tick. -/
theorem chargeShotUpdate_isCharging (m : ℚ) (inp : ShootInput) (dt st : ℚ)
    (cs : ChargeShot)
    (h : cs.isCharging = true ∨ (inp.justPressed = true ∧ st ≤ 0)) :
    (chargeShotUpdate m inp dt st cs).isCharging = true := by
  unfold chargeShotUpdate
  have h1 : (if inp.justPressed = true ∧ st ≤ 0
      then (⟨0, true⟩ : ChargeShot) else cs).isCharging = true := by
    rcases h with hc | ⟨hjp, hst⟩
    · split_ifs <;> simp [hc]
    · rw [if_pos ⟨hjp, hst⟩]
  generalize hg : (if inp.justPressed = true ∧ st ≤ 0
      then (⟨0, true⟩ : ChargeShot) else cs) = cs1 at h1 ⊢
  dsimp only
  split_ifs <;> simp_all

/-- Shared helper: every branch of `player_movement` carries the updated
facing direction through unchanged. -/
theorem player_movement_facing (invLen : Vec2 → ℚ) (inp : MoveInput)
    (dt : ℚ) (s : MoveState) :
    (player_movement invLen inp dt s).facing
      = facingUpdate invLen
          ⟨(if inp.left then -1 else 0) + (if inp.right then 1 else 0),
           if inp.up then 1 else 0⟩ s.facing := by
  cases hdash : s.dash
  · simp only [player_movement, hdash]
    split
    · rfl
    · rfl
  · simp only [player_movement, hdash]

/-- Shared helper: updating the facing by a direction with nonnegative y
keeps the y component nonnegative, provided the injected normalization
factor is positive on nonzero vectors (true of `1 / length`). -/
theorem facingUpdate_y_nonneg (invLen : Vec2 → ℚ)
    (hpos : ∀ v, v ≠ Vec2.zero → 0 < invLen v) (dx dy : ℚ) (hdy : 0 ≤ dy)
    (old : Vec2) (hold : 0 ≤ old.y) :
    0 ≤ (facingUpdate invLen ⟨dx, dy⟩ old).y := by
  unfold facingUpdate
  split
  · rename_i hne
    exact mul_nonneg hdy (hpos ⟨dx, dy⟩ hne).le
  · exact hold

/-- C9: the shoot-direction computation never rejects a shot:
`get_shoot_direction` returns `some` for every facing vector (its three
branches produce y-components 1, 0 and 0, so the `y < 0` reject branch is
unreachable); the facing direction's y stays nonnegative across every
`player_movement` tick (down input is never recorded into the direction);
and both weapon variants spawn exactly one projectile on a release/press
that passes the cooldown/charging gates. -/
theorem C9_shoot_never_rejected :
    (∀ facing : Vec2, (get_shoot_direction facing).isSome = true) ∧
    (∀ (invLen : Vec2 → ℚ), (∀ v, v ≠ Vec2.zero → 0 < invLen v) →
      ∀ (inp : MoveInput) (dt : ℚ) (s : MoveState), 0 ≤ s.facing.y →
        0 ≤ (player_movement invLen inp dt s).facing.y) ∧
    (∀ (minT maxT chargeCd normalCd : ℚ) (inp : ShootInput) (dt : ℚ)
        (facing : Vec2) (shootTimer : ℚ) (cs : ChargeShot),
      inp.justReleased = true →
      (cs.isCharging = true ∨ (inp.justPressed = true ∧ shootTimer - dt ≤ 0)) →
      (player_shooting minT maxT chargeCd normalCd true inp dt facing
          shootTimer cs).spawned = 1) ∧
    (∀ (minT maxT chargeCd normalCd : ℚ) (inp : ShootInput) (dt : ℚ)
        (facing : Vec2) (shootTimer : ℚ) (cs : ChargeShot),
      inp.justPressed = true → shootTimer - dt ≤ 0 →
      (player_shooting minT maxT chargeCd normalCd false inp dt facing
          shootTimer cs).spawned = 1) := by
  refine ⟨get_shoot_direction_isSome, ?_, ?_, ?_⟩
  · intro invLen hpos inp dt s hy
    rw [player_movement_facing]
    exact facingUpdate_y_nonneg invLen hpos _ _ (by split <;> norm_num) s.facing hy
  · intro minT maxT chargeCd normalCd inp dt facing shootTimer cs hrel hch
    have hcharging := chargeShotUpdate_isCharging maxT inp dt (shootTimer - dt) cs hch
    obtain ⟨d, hd⟩ := Option.isSome_iff_exists.mp (get_shoot_direction_isSome facing)
    simp [player_shooting, hrel, hcharging, hd]
  · intro minT maxT chargeCd normalCd inp dt facing shootTimer cs hjp hcool
    obtain ⟨d, hd⟩ := Option.isSome_iff_exists.mp (get_shoot_direction_isSome facing)
    simp [player_shooting, hjp, hcool, hd]

/-- C9 witness: concrete instances — an upward facing yields a direction;
a tick with left+up held keeps facing.y nonnegative; a Breadman release
while charging and a Cheeseman press with elapsed cooldown each spawn
exactly one projectile. -/
theorem C9_shoot_never_rejected_witness :
    (get_shoot_direction ⟨0, 1⟩).isSome = true ∧
    0 ≤ (player_movement (fun _ => 1)
        ⟨true, false, true, false, false, false, false⟩ (1/10)
        { x := 0, y := -198, velY := 0, jumpType := JumpType.none,
          facing := ⟨1, 0⟩, chargeTimer := 0, isCharging := false,
          dash := none, hasKnockback := false }).facing.y ∧
    (player_shooting 1 2 1 (1/2) true ⟨false, false, true⟩ (1/10) ⟨1, 0⟩ 0
        ⟨0, true⟩).spawned = 1 ∧
    (player_shooting 1 2 1 (1/2) false ⟨false, true, false⟩ (1/10) ⟨1, 0⟩ 0
        ⟨0, false⟩).spawned = 1 := by
  have h := C9_shoot_never_rejected
  refine ⟨h.1 ⟨0, 1⟩, ?_, ?_, ?_⟩
  · exact h.2.1 (fun _ => 1) (fun v hv => one_pos) _ (1/10) _ (le_refl 0)
  · exact h.2.2.1 1 2 1 (1/2) ⟨false, false, true⟩ (1/10) ⟨1, 0⟩ 0 ⟨0, true⟩
      rfl (Or.inl rfl)
  · exact h.2.2.2 1 2 1 (1/2) ⟨false, true, false⟩ (1/10) ⟨1, 0⟩ 0 ⟨0, false⟩
      rfl (by norm_num)

/-- C10: a boss shot aimed at a player whose position equals the boss's
position carries velocity `normalize_or_zero(0) * speed = 0`, so the
spawned projectile stores direction `(0, 0)` and speed `0`
(`sqrt 0 = 0`); under `boss_projectile_movement` its position never
changes on any subsequent tick, and since the spawn position lies strictly
inside the world boundaries the strict out-of-bounds despawn test never
fires, so the movement system never removes the projectile. -/
theorem C10_zero_direction_projectile :
    ∀ (unitOf : Vec2 → Vec2) (sqrtFn : ℚ → ℚ), sqrtFn 0 = 0 →
    ∀ (pos : Vec2) (projectileSpeed : ℚ),
      BOUNDARY_LEFT < pos.x → pos.x < BOUNDARY_RIGHT →
      BOUNDARY_BOTTOM < pos.y → pos.y < BOUNDARY_TOP →
      (spawn_boss_projectile unitOf sqrtFn pos
          (aimedShotVelocity unitOf pos pos projectileSpeed)).direction = Vec2.zero ∧
      (spawn_boss_projectile unitOf sqrtFn pos
          (aimedShotVelocity unitOf pos pos projectileSpeed)).speed = 0 ∧
      ∀ dts : List ℚ,
        bossProjectileTicks dts
            (spawn_boss_projectile unitOf sqrtFn pos
              (aimedShotVelocity unitOf pos pos projectileSpeed))
          = some (spawn_boss_projectile unitOf sqrtFn pos
              (aimedShotVelocity unitOf pos pos projectileSpeed)) := by
  intro unitOf sqrtFn hs pos projectileSpeed hL hR hB hT
  have hvel : aimedShotVelocity unitOf pos pos projectileSpeed = Vec2.zero := by
    simp [aimedShotVelocity, normalizeOrZero, Vec2.scale, Vec2.zero]
  have hproj : spawn_boss_projectile unitOf sqrtFn pos
      (aimedShotVelocity unitOf pos pos projectileSpeed)
      = ⟨pos.x, pos.y, Vec2.zero, 0⟩ := by
    rw [hvel]
    simp [spawn_boss_projectile, normalizeOrZero, vecLength, Vec2.zero, hs]
  have hstep : ∀ dt : ℚ,
      boss_projectile_movement dt (⟨pos.x, pos.y, Vec2.zero, 0⟩ : BossProjectile)
        = some ⟨pos.x, pos.y, Vec2.zero, 0⟩ := by
    intro dt
    unfold boss_projectile_movement
    rw [if_neg]
    · simp [Vec2.zero]
    · push_neg
      simp only [Vec2.zero, zero_mul, mul_zero, add_zero]
      exact ⟨hL.le, hR.le, hB.le, hT.le⟩
  rw [hproj]
  refine ⟨rfl, rfl, ?_⟩
  intro dts
  induction dts with
  | nil => rfl
  | cons d rest ih =>
    rw [bossProjectileTicks] at ih ⊢
    rw [List.foldl_cons]
    have hacc : (some (⟨pos.x, pos.y, Vec2.zero, 0⟩ : BossProjectile)).bind
        (boss_projectile_movement d) = some ⟨pos.x, pos.y, Vec2.zero, 0⟩ :=
      hstep d
    rw [hacc]
    exact ih

/-- C10 witness: with position (300, −100), identity-like injected
normalize/sqrt and projectile speed 300, the spawned projectile has zero
direction and survives two 0.1s movement ticks unchanged. -/
theorem C10_zero_direction_projectile_witness :
    (spawn_boss_projectile (fun v => v) (fun _ => 0) ⟨300, -100⟩
        (aimedShotVelocity (fun v => v) ⟨300, -100⟩ ⟨300, -100⟩ 300)).direction
      = Vec2.zero ∧
    bossProjectileTicks [1/10, 1/10]
        (spawn_boss_projectile (fun v => v) (fun _ => 0) ⟨300, -100⟩
          (aimedShotVelocity (fun v => v) ⟨300, -100⟩ ⟨300, -100⟩ 300))
      = some (spawn_boss_projectile (fun v => v) (fun _ => 0) ⟨300, -100⟩
          (aimedShotVelocity (fun v => v) ⟨300, -100⟩ ⟨300, -100⟩ 300)) := by
  have h := C10_zero_direction_projectile (fun v => v) (fun _ => 0) rfl
    ⟨300, -100⟩ 300
    (by norm_num [BOUNDARY_LEFT]) (by norm_num [BOUNDARY_RIGHT])
    (by norm_num [BOUNDARY_BOTTOM]) (by norm_num [BOUNDARY_TOP])
  exact ⟨h.1, h.2.2 [1/10, 1/10]⟩

end BevyGame
